import Mathlib

/-!
Verification of the alfacheck extraction pipeline: a shallow embedding in
Lean 4 of the data model (`models.py`), the session registry
(`session_manager.py`), the response classification of the API client
(`api_client.py`), the per-account extraction and status derivation
(`scraper.py`), and the batch orchestration (`telegram_bot.py`), with
theorems settling the stated behavioural properties.

Python dynamic values that may be either a string sentinel or a number
(`Any`-typed fields of `AccountData`) are embedded as the sum type `Val`;
Python `float` arithmetic on the decimal literals the portal returns is
embedded over `ℚ` (all values exercised are exactly representable);
timestamps (`datetime.now()`) are embedded as integer minutes.
-/

/-- A dynamically typed Python value as stored in the `Any`-typed fields of
`AccountData`: either a string (usually a sentinel) or a number. -/
inductive Val where
  | str (s : String)
  | num (q : ℚ)
deriving DecidableEq, Repr

/-- The `AccountData` dataclass of `models.py`, with its field defaults:
`status="Error"`, `error_details=""`, most data fields `"Not Found"`, and
`service_details`/`secondary_numbers` defaulting to `"None"`. -/
structure AccountData where
  username : String
  status : String := "Error"
  error_details : String := ""
  activation_date : String := "Not Found"
  validity_days_remaining : Val := .str "Not Found"
  current_balance : Val := .str "Not Found"
  last_recharge_amount : Val := .str "Not Found"
  last_recharge_date : String := "Not Found"
  service_details : String := "None"
  secondary_numbers : String := "None"
  main_consumption : String := "Not Found"
  mobile_internet_consumption : String := "Not Found"
  secondary_consumption : String := "Not Found"
  subscription_date : String := "Not Found"
  validity_date : String := "Not Found"
deriving DecidableEq, Repr

/-- `AccountData(username=u)`: a freshly constructed record with all other
fields at their dataclass defaults. -/
def freshAccount (u : String) : AccountData := { username := u }

/-- The per-value sentinel test of `scraper.process_account`:
`val == "API Error" or val == "Not Found"` on a string value. -/
def strSentinel (s : String) : Bool := s == "API Error" || s == "Not Found"

/-- The same sentinel test on a dynamic value: in Python a float compares
unequal to any string, so numeric values are never sentinels. -/
def Val.sentinel : Val → Bool
  | .str s => strSentinel s
  | .num _ => false

/-- The `any(...)` generator of `scraper.process_account` (lines 453-455):
some field of `to_dict()` other than `error_details`, `status`, `username`
equals `"API Error"` or `"Not Found"`. -/
def hasSentinelField (d : AccountData) : Bool :=
  strSentinel d.activation_date ||
  d.validity_days_remaining.sentinel ||
  d.current_balance.sentinel ||
  d.last_recharge_amount.sentinel ||
  strSentinel d.last_recharge_date ||
  strSentinel d.service_details ||
  strSentinel d.secondary_numbers ||
  strSentinel d.main_consumption ||
  strSentinel d.mobile_internet_consumption ||
  strSentinel d.secondary_consumption ||
  strSentinel d.subscription_date ||
  strSentinel d.validity_date

/-- The final-status derivation of `scraper.process_account` (lines
452-462): if any data field carries a sentinel, status becomes
`"Partial Success"` and `error_details` is defaulted when empty; otherwise
status becomes `"Success"` and `error_details` is cleared. -/
def finalizeStatus (d : AccountData) : AccountData :=
  if hasSentinelField d then
    { d with status := "Partial Success",
             error_details :=
               if d.error_details = "" then "Some data could not be retrieved"
               else d.error_details }
  else
    { d with status := "Success", error_details := "" }

/-! ### String primitives
The Lean core string functions (`trim`, `splitOn`, `replace`, `map`,
`take`, `startsWith`) are defined by well-founded recursion over byte
positions, which the kernel does not reduce; the Python string
operations the pipeline uses are therefore embedded as structurally
recursive functions over the character list. -/

/-- `leadsWith n l`: the character list `n` is an initial segment of `l`. -/
def leadsWith : List Char → List Char → Bool
  | [], _ => true
  | _ :: _, [] => false
  | a :: as, b :: bs => a == b && leadsWith as bs

/-- `containsSub l n`: `n` occurs as a contiguous sublist of `l`
(Python's `needle in haystack`). -/
def containsSub : List Char → List Char → Bool
  | _, [] => true
  | [], _ :: _ => false
  | h :: t, n => leadsWith n (h :: t) || containsSub t n

/-- Python `needle in haystack` on strings. -/
def strContains (hay needle : String) : Bool := containsSub hay.data needle.data

/-- Python truthiness of a string: empty strings are falsy. -/
def strNull (s : String) : Bool := s.data.isEmpty

/-- Drop the longest run of characters satisfying `p` from the front. -/
def dropLeading (p : Char → Bool) : List Char → List Char
  | [] => []
  | c :: cs => if p c then dropLeading p cs else c :: cs

/-- Python `str.strip()`: whitespace removed from both ends. -/
def pyStrip (s : String) : String :=
  ⟨(dropLeading Char.isWhitespace ((dropLeading Char.isWhitespace s.data).reverse)).reverse⟩

/-- Split a character list at every occurrence of `sep` (Python
`str.split(sep)` for a one-character separator); `acc` holds the
characters of the current piece in reverse. -/
def splitOnCharAux (sep : Char) : List Char → List Char → List (List Char)
  | [], acc => [acc.reverse]
  | c :: cs, acc =>
    if c == sep then acc.reverse :: splitOnCharAux sep cs []
    else splitOnCharAux sep cs (c :: acc)

/-- Python `s.split(sep)` for a one-character separator. -/
def pySplit (s : String) (sep : Char) : List String :=
  (splitOnCharAux sep s.data []).map String.mk

/-- Python `s.replace(c, '')`: remove every occurrence of the character. -/
def removeChar (c : Char) (s : String) : String := ⟨s.data.filter (· != c)⟩

/-- Python `str.lower()` (ASCII case folding, which covers the header and
tag comparisons the client performs). -/
def pyLower (s : String) : String := ⟨s.data.map Char.toLower⟩

/-! ### Field parsers of `scraper.extract_api_data` -/

/-- Value of a list of decimal digit characters (most significant first). -/
def natOfDigits (cs : List Char) : ℕ :=
  cs.foldl (fun n c => 10 * n + (c.toNat - 48)) 0

/-- Python `str.isdigit()`: non-empty and all characters are digits. -/
def isDigits (s : String) : Bool := !strNull s && s.data.all Char.isDigit

/-- Python `float()` restricted to plain decimal literals (optional sign,
integer part, optional fractional part), the only forms the portal's
numeric fields take; `none` models the raised `ValueError`. -/
def pyFloat (s : String) : Option ℚ :=
  let t := pyStrip s
  let sgn : ℚ := if leadsWith ['-'] t.data then -1 else 1
  let body : String :=
    if leadsWith ['-'] t.data || leadsWith ['+'] t.data then ⟨t.data.drop 1⟩ else t
  match pySplit body '.' with
  | [ip] =>
    if isDigits ip then some (sgn * (natOfDigits ip.data : ℚ)) else none
  | [ip, fp] =>
    if (!strNull ip || !strNull fp) && ip.data.all Char.isDigit && fp.data.all Char.isDigit then
      some (sgn * ((natOfDigits ip.data : ℚ) + (natOfDigits fp.data : ℚ) / (10 : ℚ) ^ fp.length))
    else none
  | _ => none

/-- Balance parsing of `scraper.extract_api_data` (lines 92-93):
`balance_str = data.get('CurrentBalanceValue','').replace('$','').strip()`
then `float(balance_str) if balance_str else "API Error"`. `none` models
the `ValueError` that the surrounding `except` turns into the
all-fields-`"API Error"` path. -/
def parseBalance (raw : String) : Option Val :=
  let balance_str := pyStrip (removeChar '$' raw)
  if strNull balance_str then some (.str "API Error")
  else (pyFloat balance_str).map .num

/-- Expiry parsing of `scraper.extract_api_data` (lines 196-199) for a
scalar payload: `days = str(expiry_data).split(' ')[0]` then
`int(days) if days.isdigit() else "API Error"`. -/
def parseExpiryScalar (s : String) : Val :=
  let days := (pySplit s ' ').headD ""
  if isDigits days then .num (natOfDigits days.data : ℚ) else .str "API Error"

/-- Round to the nearest integer, ties to even (the rounding Python's
fixed-point float formatting applies; no tie arises for the inputs the
pipeline produces). -/
def roundHalfEven (q : ℚ) : ℤ :=
  if q - ⌊q⌋ < 1 / 2 then ⌊q⌋
  else if 1 / 2 < q - ⌊q⌋ then ⌊q⌋ + 1
  else if ⌊q⌋ % 2 = 0 then ⌊q⌋ else ⌊q⌋ + 1

/-- Render a number of hundredths as a two-decimal fixed-point string. -/
def natFix2 (m : ℕ) : String :=
  toString (m / 100) ++ "." ++ (if m % 100 < 10 then "0" else "") ++ toString (m % 100)

/-- Python `f"{x:.2f}"`: fixed-point formatting with two decimal places. -/
def fix2 (q : ℚ) : String :=
  (if q < 0 then "-" else "") ++ natFix2 (roundHalfEven (|q| * 100)).toNat

/-- The per-detail main/mobile consumption update of
`scraper.extract_api_data` (lines 104-121): for services `U-share Main` or
`Mobile Internet`, compute `float(ConsumptionValue)/1024` (`0` when the
string is empty), format `"{gb:.2f} GB/{PackageValue} GB"`, set
`main_consumption` when still `"Not Found"`, and additionally set
`mobile_internet_consumption` for the `Mobile Internet` service or
description; a `ValueError` sets `main_consumption` to `"API Error"`
when still `"Not Found"`. -/
def processMainDetail (service_name consumption_mb package_gb description : String)
    (d : AccountData) : AccountData :=
  if service_name = "U-share Main" ∨ service_name = "Mobile Internet" then
    match (if strNull consumption_mb then some (0 : ℚ)
           else (pyFloat consumption_mb).map (· / 1024)) with
    | some consumption_gb =>
      let cstr := fix2 consumption_gb ++ " GB/" ++ package_gb ++ " GB"
      let d1 := if d.main_consumption = "Not Found" then { d with main_consumption := cstr } else d
      if service_name = "Mobile Internet" ∨ description = "Mobile Internet" then
        { d1 with mobile_internet_consumption := cstr }
      else d1
    | none =>
      if d.main_consumption = "Not Found" then { d with main_consumption := "API Error" } else d
  else d

/-! ### Stage-level fetch-failure updates of `scraper.extract_api_data` -/

/-- The consumption-stage fetch-failure branch (lines 170-176): every
field the stage owns is overwritten to `"API Error"`. -/
def consumptionFetchFailure (d : AccountData) : AccountData :=
  { d with current_balance := .str "API Error",
           secondary_numbers := "API Error",
           main_consumption := "API Error",
           mobile_internet_consumption := "API Error",
           secondary_consumption := "API Error" }

/-- The expiry-stage fetch-failure branch (lines 210-212). -/
def expiryFetchFailure (d : AccountData) : AccountData :=
  { d with validity_days_remaining := .str "API Error" }

/-! ### Per-account pipeline and batch orchestration
(`scraper.process_account`, `telegram_bot.process_batch_concurrent`,
`telegram_bot.process_accounts_batch`) -/

/-- The `AccountCredentials` dataclass of `models.py`. -/
structure AccountCredentials where
  username : String
  password : String
deriving DecidableEq, Repr

/-- The exception handler of `scraper.process_account` (lines 464-473):
status `"Error"` and `error_details` from the exception message, with a
non-empty fallback when the message is empty. -/
def applyUnhandledError (d : AccountData) (msg : String) : AccountData :=
  { d with status := "Error",
           error_details :=
             if msg = "" then "Unknown processing error occurred"
             else "Unhandled Exception: " ++ msg }

/-- Outcome of the `try` body of `scraper.process_account`: either the
body raised (in the source this happens in `get_or_create_session`,
before any data field is populated) or the two extraction stages
completed leaving the mutated record. -/
inductive AttemptOutcome where
  | raised (msg : String)
  | extracted (d : AccountData)
deriving DecidableEq, Repr

/-- `scraper.process_account`: a fresh record per attempt; on an unhandled
exception the error handler runs, otherwise the final status is derived
from the extracted fields. -/
def process_account (c : AccountCredentials) : AttemptOutcome → AccountData
  | .raised msg => applyUnhandledError (freshAccount c.username) msg
  | .extracted d => finalizeStatus d

/-- Result of one `asyncio.gather(..., return_exceptions=True)` slot in
`telegram_bot.process_batch_concurrent`: an exception object, or the
value `process_account` returned. -/
inductive TaskResult where
  | exn (msg : String)
  | done (o : AttemptOutcome)
deriving DecidableEq, Repr

/-- The per-slot handling of `telegram_bot.process_batch_concurrent`
(lines 760-771): an exception for account `i` is replaced by an
`"Error"`-status record for that account's username. -/
def taskRecord (p : AccountCredentials × TaskResult) : AccountData :=
  match p.2 with
  | .exn msg =>
    { freshAccount p.1.username with
      status := "Error", error_details := "Processing failed: " ++ msg }
  | .done o => process_account p.1 o

/-- `telegram_bot.process_batch_concurrent`: one record per account of the
batch, in task order. -/
def process_batch_concurrent (batch : List (AccountCredentials × TaskResult)) :
    List AccountData :=
  batch.map taskRecord

/-- `bot_config.BATCH_SIZE`. -/
def BATCH_SIZE : ℕ := 50

/-- The batch partition of `telegram_bot.process_accounts_batch`:
`[accounts[i:i+n] for i in range(0, len(accounts), n)]`. -/
def chunksOf {α : Type} (n : ℕ) : List α → List (List α)
  | [] => []
  | x :: xs =>
    if n = 0 then []
    else (x :: xs).take n :: chunksOf n ((x :: xs).drop n)
termination_by l => l.length
decreasing_by
  simp only [List.length_drop, List.length_cons]
  omega

/-- `telegram_bot.process_accounts_batch`: split into batches of
`min(BATCH_SIZE, len(accounts))`, process each batch concurrently, and
append every batch's records to the running results in order. -/
def process_accounts_batch (accounts : List (AccountCredentials × TaskResult)) :
    List AccountData :=
  ((chunksOf (min BATCH_SIZE accounts.length) accounts).map process_batch_concurrent).flatten

/-! ### Response classification of `api_client.APIClient.make_api_request` -/

/-- The part of an HTTP response the classification reads:
`response.headers.get('Content-Type','')` and `response.text`. -/
structure HttpResponse where
  contentType : String
  body : String
deriving DecidableEq, Repr

/-- The HTML heuristic of `make_api_request` (lines 203-204):
`'text/html' in content_type.lower() or '<html' in response.text[:1000].lower()`. -/
def looks_html (r : HttpResponse) : Bool :=
  strContains (pyLower r.contentType) "text/html" ||
  strContains (pyLower ⟨r.body.data.take 1000⟩) "<html"

/-- The success/error part of the `APIResponse` dataclass of `models.py`
that the classification populates. -/
structure APIResponse where
  success : Bool
  error : Option String := none
deriving DecidableEq, Repr

/-- The response classification of `make_api_request` after a 2xx HTTP
status (lines 202-244): session-expired when the body looks like HTML, a
password was supplied, and `retry_count < 2`; otherwise a JSON parse is
attempted (`jsonParsed` abstracts `parse_json_safely` returning truthy
data); on parse failure an HTML-specific or content-type error is
returned (`htmlErrorText` abstracts the scraped error element's text). -/
def classify_api_response (r : HttpResponse) (hasPassword : Bool) (retry_count : ℕ)
    (jsonParsed : Bool) (htmlErrorText : String) : APIResponse :=
  if looks_html r && hasPassword && decide (retry_count < 2) then
    { success := false, error := some "Session expired - HTML response received" }
  else if jsonParsed then
    { success := true }
  else if looks_html r then
    { success := false, error := some ("HTML Error: " ++ htmlErrorText) }
  else
    { success := false, error := some ("Unexpected content type: " ++ pyLower r.contentType) }

/-! ### The session registry (`session_manager.py`)
Timestamps (`datetime.now()`) are embedded as integer minutes; the
result of `APIClient.login` is supplied as an oracle argument
(`loginError`), and the fresh `APIClient()` object as its identity
`newClient`. -/

/-- The `SessionInfo` dataclass of `session_manager.py`; `client` is the
identity of the underlying `APIClient` object. -/
structure SessionInfo where
  client : ℕ
  username : String
  password : String
  login_time : ℤ
  last_used : ℤ
  is_valid : Bool := true
deriving DecidableEq, Repr

/-- `SessionInfo.is_expired`: strictly older than `max_age_minutes`. -/
def SessionInfo.is_expired (s : SessionInfo) (now max_age_minutes : ℤ) : Bool :=
  now - s.login_time > max_age_minutes

/-- `SessionInfo.is_idle`: last used strictly more than
`max_idle_minutes` ago. -/
def SessionInfo.is_idle (s : SessionInfo) (now max_idle_minutes : ℤ) : Bool :=
  now - s.last_used > max_idle_minutes

/-- The `SessionManager` registry: the `_sessions` dict is embedded as a
lookup function, with the constructor defaults `max_age_minutes=30`,
`max_idle_minutes=10`. -/
structure SessionManager where
  sessions : String → Option SessionInfo
  max_age_minutes : ℤ := 30
  max_idle_minutes : ℤ := 10

/-- Registry update (Python dict assignment / `del`). -/
def updReg (f : String → Option SessionInfo) (k : String) (v : Option SessionInfo) :
    String → Option SessionInfo :=
  fun x => if x = k then v else f x

/-- `SessionManager._cleanup_sessions`: remove every entry that is
expired, idle, or marked invalid. -/
def SessionManager.cleanup (m : SessionManager) (now : ℤ) : SessionManager :=
  { m with sessions := fun u =>
      match m.sessions u with
      | none => none
      | some si =>
        if si.is_expired now m.max_age_minutes || si.is_idle now m.max_idle_minutes
            || !si.is_valid then none
        else some si }

/-- The reuse test of `get_or_create_session` (lines 65-67): not expired,
still valid, and the stored password matches. -/
def reuse_ok (si : SessionInfo) (password : String) (now max_age : ℤ) : Bool :=
  !si.is_expired now max_age && si.is_valid && (si.password == password)

/-- `SessionManager.get_or_create_session`: clean up, then reuse a
matching live entry (refreshing `last_used`), else drop the stale entry
and log in fresh; a successful login registers and returns the new
client with `is_new=true`, a failed login raises
`Exception(f"Login failed: {error}")`. -/
def SessionManager.get_or_create_session (m : SessionManager) (username password : String)
    (now : ℤ) (loginError : Option String) (newClient : ℕ) :
    Except String (ℕ × Bool) × SessionManager :=
  match (m.cleanup now).sessions username with
  | some session_info =>
    if reuse_ok session_info password now (m.cleanup now).max_age_minutes then
      (.ok (session_info.client, false),
       { (m.cleanup now) with
         sessions :=
           updReg (m.cleanup now).sessions username
             (some { session_info with last_used := now }) })
    else
      match loginError with
      | none =>
        (.ok (newClient, true),
         { (m.cleanup now) with
           sessions :=
             updReg (updReg (m.cleanup now).sessions username none) username
               (some (SessionInfo.mk newClient username password now now true)) })
      | some e =>
        (.error ("Login failed: " ++ e),
         { (m.cleanup now) with
           sessions := updReg (m.cleanup now).sessions username none })
  | none =>
    match loginError with
    | none =>
      (.ok (newClient, true),
       { (m.cleanup now) with
         sessions :=
           updReg (m.cleanup now).sessions username
             (some (SessionInfo.mk newClient username password now now true)) })
    | some e => (.error ("Login failed: " ++ e), m.cleanup now)

/-- `SessionManager.invalidate_session`: mark the entry, if present, as
invalid without removing it. -/
def SessionManager.invalidate_session (m : SessionManager) (username : String) :
    SessionManager :=
  match m.sessions username with
  | some si =>
    { m with sessions := updReg m.sessions username (some { si with is_valid := false }) }
  | none => m

/-- The module-level `session_manager = SessionManager()` instance: empty
registry, default limits. -/
def session_manager : SessionManager := { sessions := fun _ => none }

/-- **C1.** For every record leaving the status-derivation step, the status
is `"Success"` iff no field besides `username`/`status`/`error_details`
carries `"Not Found"` or `"API Error"`; on `"Success"` the `error_details`
field is cleared, and otherwise the record is marked `"Partial Success"`. -/
theorem finalizeStatus_success_iff (d : AccountData) :
    ((finalizeStatus d).status = "Success" ↔ hasSentinelField (finalizeStatus d) = false) ∧
    ((finalizeStatus d).status = "Success" → (finalizeStatus d).error_details = "") ∧
    ((finalizeStatus d).status ≠ "Success" → (finalizeStatus d).status = "Partial Success") := by
  have hf : hasSentinelField (finalizeStatus d) = hasSentinelField d := by
    unfold finalizeStatus; split <;> rfl
  rw [hf]
  by_cases h : hasSentinelField d = true <;>
    simp [finalizeStatus, h]

/-- **C7.** The concrete parser scenarios: a balance of `"$12.50 "` parses
to `12.5`; an expiry payload `"15 days"` parses to `15`; a consumption
detail `ConsumptionValue="2048"`, `PackageValue="5"` under the service
`Mobile Internet` yields `mobile_internet_consumption = "2.00 GB/5 GB"`. -/
theorem concrete_parser_scenarios :
    parseBalance "$12.50 " = some (.num (25 / 2)) ∧
    parseExpiryScalar "15 days" = .num 15 ∧
    (processMainDetail "Mobile Internet" "2048" "5" "" (freshAccount "96170000")).mobile_internet_consumption
      = "2.00 GB/5 GB" := by
  refine ⟨?_, ?_, ?_⟩
  · have h : parseBalance "$12.50 " =
        some (.num ((1 : ℚ) * ((natOfDigits ['1', '2'] : ℚ)
          + (natOfDigits ['5', '0'] : ℚ) / (10 : ℚ) ^ (2 : ℕ)))) := rfl
    rw [h, show natOfDigits ['1', '2'] = 12 from rfl,
        show natOfDigits ['5', '0'] = 50 from rfl]
    norm_num
  · have h : parseExpiryScalar "15 days" = .num (natOfDigits ['1', '5'] : ℚ) := rfl
    rw [h, show natOfDigits ['1', '5'] = 15 from rfl]
    norm_num
  · have h : (processMainDetail "Mobile Internet" "2048" "5" ""
          (freshAccount "96170000")).mobile_internet_consumption =
        fix2 ((1 : ℚ) * (natOfDigits ['2', '0', '4', '8'] : ℚ) / 1024)
          ++ " GB/" ++ "5" ++ " GB" := rfl
    rw [h, show natOfDigits ['2', '0', '4', '8'] = 2048 from rfl,
        show (1 : ℚ) * ((2048 : ℕ) : ℚ) / 1024 = 2 by norm_num]
    have habs : |(2 : ℚ)| * 100 = 200 := by norm_num
    have hrhe : roundHalfEven (200 : ℚ) = 200 := by unfold roundHalfEven; norm_num
    rw [fix2, habs, hrhe, if_neg (by norm_num : ¬ (2 : ℚ) < 0)]
    rfl

/-- **C8 counterexample.** Not every data field of a fresh record starts
at `"Not Found"`: `service_details` (like `secondary_numbers`) is
initialized to `"None"`. -/
theorem fresh_record_none_default :
    (freshAccount "96170001").service_details = "None" ∧
    (freshAccount "96170001").secondary_numbers = "None" ∧
    (freshAccount "96170001").service_details ≠ "Not Found" := by
  decide

/-- **C8 (amended).** A fresh record initializes every data field to
`"Not Found"` except `service_details` and `secondary_numbers`, which
start at `"None"`; a stage-specific fetch failure overwrites the fields
the stage owns to `"API Error"`. -/
theorem fresh_record_defaults (u : String) (d : AccountData) :
    ((freshAccount u).activation_date = "Not Found" ∧
     (freshAccount u).validity_days_remaining = .str "Not Found" ∧
     (freshAccount u).current_balance = .str "Not Found" ∧
     (freshAccount u).last_recharge_amount = .str "Not Found" ∧
     (freshAccount u).last_recharge_date = "Not Found" ∧
     (freshAccount u).main_consumption = "Not Found" ∧
     (freshAccount u).mobile_internet_consumption = "Not Found" ∧
     (freshAccount u).secondary_consumption = "Not Found" ∧
     (freshAccount u).subscription_date = "Not Found" ∧
     (freshAccount u).validity_date = "Not Found" ∧
     (freshAccount u).service_details = "None" ∧
     (freshAccount u).secondary_numbers = "None") ∧
    ((consumptionFetchFailure d).current_balance = .str "API Error" ∧
     (consumptionFetchFailure d).secondary_numbers = "API Error" ∧
     (consumptionFetchFailure d).main_consumption = "API Error" ∧
     (consumptionFetchFailure d).mobile_internet_consumption = "API Error" ∧
     (consumptionFetchFailure d).secondary_consumption = "API Error") ∧
    (expiryFetchFailure d).validity_days_remaining = .str "API Error" := by
  exact ⟨⟨rfl, rfl, rfl, rfl, rfl, rfl, rfl, rfl, rfl, rfl, rfl, rfl⟩,
         ⟨rfl, rfl, rfl, rfl, rfl⟩, rfl⟩

/-- **C5 counterexample.** An HTML response on a later attempt
(`retry_count = 2`, which is not the first attempt) is *not* classified
as session-expired: the `retry_count < 2` guard fails and the call falls
through to JSON parsing. -/
theorem html_late_attempt_not_session_expired :
    looks_html ⟨"text/html; charset=utf-8", "<html><body>login</body></html>"⟩ = true ∧
    (2 : ℕ) ≠ 0 ∧
    classify_api_response ⟨"text/html; charset=utf-8", "<html><body>login</body></html>"⟩
        true 2 false "x"
      ≠ { success := false, error := some "Session expired - HTML response received" } := by
  decide

/-- Two strings with different character data are different. -/
theorem ne_of_data_ne (a b : String) (h : a.data ≠ b.data) : a ≠ b :=
  fun hc => h (congrArg String.data hc)

/-- A string starting with a non-empty literal prefix is non-empty. -/
theorem append_ne_empty_left (a s : String) (ha : a.data ≠ []) : a ++ s ≠ "" := by
  obtain ⟨la⟩ := a
  obtain ⟨l⟩ := s
  intro h
  have h2 : la ++ l = ([] : List Char) := congrArg String.data h
  exact ha (List.append_eq_nil.mp h2).1

/-- No HTML-parse error message collides with the session-expired
message (they start with different characters). -/
theorem html_error_ne_session_msg (s : String) :
    ("HTML Error: " ++ s) ≠ "Session expired - HTML response received" := by
  obtain ⟨l⟩ := s
  apply ne_of_data_ne
  show 'H' :: ("TML Error: ".data ++ l) ≠ "Session expired - HTML response received".data
  simp

/-- No content-type error message collides with the session-expired
message. -/
theorem content_type_ne_session_msg (s : String) :
    ("Unexpected content type: " ++ s) ≠ "Session expired - HTML response received" := by
  obtain ⟨l⟩ := s
  apply ne_of_data_ne
  show 'U' :: ("nexpected content type: ".data ++ l) ≠
    "Session expired - HTML response received".data
  simp

/-- **C5 (amended).** A call is classified as session-expired exactly when
the response looks like HTML, a password was supplied for the call, and
fewer than two retries have occurred (`retry_count < 2`) — which includes
the first attempt, not "not the first attempt" as the claim states. -/
theorem session_expired_classification_iff (r : HttpResponse) (hasPassword : Bool)
    (rc : ℕ) (jsonParsed : Bool) (htmlErrorText : String) :
    classify_api_response r hasPassword rc jsonParsed htmlErrorText
        = { success := false, error := some "Session expired - HTML response received" } ↔
      looks_html r = true ∧ hasPassword = true ∧ rc < 2 := by
  by_cases hc : (looks_html r && hasPassword && decide (rc < 2)) = true
  · rw [classify_api_response, if_pos hc]
    simp only [Bool.and_eq_true, decide_eq_true_eq] at hc
    exact iff_of_true rfl ⟨hc.1.1, hc.1.2, hc.2⟩
  · rw [classify_api_response, if_neg hc]
    apply iff_of_false
    · by_cases hj : jsonParsed = true
      · rw [if_pos hj]
        intro h
        exact absurd (congrArg APIResponse.success h) (by decide)
      · rw [if_neg hj]
        by_cases hh : looks_html r = true
        · rw [if_pos hh]
          intro h
          have h2 := congrArg APIResponse.error h
          simp only [Option.some.injEq] at h2
          exact html_error_ne_session_msg htmlErrorText h2
        · rw [if_neg hh]
          intro h
          have h2 := congrArg APIResponse.error h
          simp only [Option.some.injEq] at h2
          exact content_type_ne_session_msg (pyLower r.contentType) h2
    · intro ⟨h1, h2, h3⟩
      exact hc (by simp [h1, h2, h3])

/-- **C6.** Every record handed off at the end of an extraction attempt
(through the pipeline or the orchestrator's exception replacement) has a
non-empty `error_details` whenever its status is `"Partial Success"` or
`"Error"`; a partial-success record with no stage tag receives the
generic message, and an unhandled-exception record carries the exception
message under a fixed prefix. -/
theorem failure_records_have_error_details :
    (∀ p : AccountCredentials × TaskResult,
        (taskRecord p).status = "Partial Success" ∨ (taskRecord p).status = "Error" →
        (taskRecord p).error_details ≠ "") ∧
    (∀ d, hasSentinelField d = true → d.error_details = "" →
        (finalizeStatus d).error_details = "Some data could not be retrieved") ∧
    (∀ d msg, msg ≠ "" →
        (applyUnhandledError d msg).error_details = "Unhandled Exception: " ++ msg) := by
  refine ⟨?_, ?_, ?_⟩
  · rintro ⟨c, t⟩ h
    match t with
    | .exn msg =>
      exact append_ne_empty_left "Processing failed: " msg (by decide)
    | .done (.raised msg) =>
      show (applyUnhandledError (freshAccount c.username) msg).error_details ≠ ""
      unfold applyUnhandledError
      by_cases hm : msg = ""
      · rw [if_pos hm]
        show ("Unknown processing error occurred" : String) ≠ ""
        decide
      · rw [if_neg hm]
        exact append_ne_empty_left "Unhandled Exception: " msg (by decide)
    | .done (.extracted d) =>
      show (finalizeStatus d).error_details ≠ ""
      unfold finalizeStatus
      by_cases hs : hasSentinelField d = true
      · rw [if_pos hs]
        show (if d.error_details = "" then "Some data could not be retrieved"
              else d.error_details) ≠ ""
        by_cases he : d.error_details = ""
        · rw [if_pos he]; decide
        · rw [if_neg he]; exact he
      · exfalso
        have hst : (taskRecord (c, .done (.extracted d))).status = "Success" := by
          show (finalizeStatus d).status = "Success"
          unfold finalizeStatus
          rw [if_neg hs]
        rcases h with h | h <;> rw [hst] at h <;> exact absurd h (by decide)
  · intro d hs he
    unfold finalizeStatus
    rw [if_pos hs]
    show (if d.error_details = "" then "Some data could not be retrieved"
          else d.error_details) = _
    rw [if_pos he]
  · intro d msg hm
    unfold applyUnhandledError
    show (if msg = "" then "Unknown processing error occurred"
          else "Unhandled Exception: " ++ msg) = _
    rw [if_neg hm]

/-- Witness for C6 at a concrete orchestrator-replaced error record. -/
theorem failure_records_have_error_details_witness :
    (taskRecord (⟨"96170002", "pw"⟩, .exn "boom")).error_details ≠ "" :=
  failure_records_have_error_details.1 (⟨"96170002", "pw"⟩, .exn "boom") (Or.inr rfl)

/-- Concatenating the batch partition recovers the account list (the
Python slices `accounts[i:i+n]` tile the list when `n > 0`). -/
theorem chunksOf_flatten {α : Type} (n : ℕ) (hn : n ≠ 0) (l : List α) :
    (chunksOf n l).flatten = l := by
  have key : ∀ k (l : List α), l.length ≤ k → (chunksOf n l).flatten = l := by
    intro k
    induction k with
    | zero =>
      intro l hl
      have hnil : l = [] := List.eq_nil_of_length_eq_zero (Nat.le_zero.mp hl)
      subst hnil
      simp [chunksOf]
    | succ k ih =>
      intro l hl
      match l with
      | [] => simp [chunksOf]
      | x :: xs =>
        simp only [List.length_cons] at hl
        rw [chunksOf, if_neg hn, List.flatten_cons,
            ih ((x :: xs).drop n)
              (by simp only [List.length_drop, List.length_cons]; omega)]
        exact List.take_append_drop n (x :: xs)
  exact key l.length l (Nat.le_refl _)

/-- One orchestration run yields exactly the per-task records, in
submission order. -/
theorem process_accounts_batch_eq (accounts : List (AccountCredentials × TaskResult)) :
    process_accounts_batch accounts = accounts.map taskRecord := by
  have hpb : process_batch_concurrent = List.map taskRecord := rfl
  match accounts with
  | [] => simp [process_accounts_batch, chunksOf]
  | a :: as =>
    rw [process_accounts_batch, hpb, ← List.map_flatten,
        chunksOf_flatten (min BATCH_SIZE (a :: as).length)
          (by simp only [BATCH_SIZE, List.length_cons]; omega)]

/-- **C2.** A run over `N` submitted credentials produces exactly `N`
records, positionally one per submitted account (same username) and each
with a terminal status, regardless of how many tasks fail or raise. -/
theorem batch_run_one_record_per_account (accounts : List (AccountCredentials × TaskResult))
    (husr : ∀ p ∈ accounts, ∀ d, p.2 = .done (.extracted d) → d.username = p.1.username) :
    (process_accounts_batch accounts).length = accounts.length ∧
    List.Forall₂ (fun (p : AccountCredentials × TaskResult) (r : AccountData) =>
        r.username = p.1.username ∧
        (r.status = "Success" ∨ r.status = "Partial Success" ∨ r.status = "Error"))
      accounts (process_accounts_batch accounts) := by
  rw [process_accounts_batch_eq]
  refine ⟨by simp, ?_⟩
  rw [List.forall₂_map_right_iff, List.forall₂_same]
  intro p hp
  obtain ⟨c, t⟩ := p
  match t with
  | .exn msg => exact ⟨rfl, Or.inr (Or.inr rfl)⟩
  | .done (.raised msg) => exact ⟨rfl, Or.inr (Or.inr rfl)⟩
  | .done (.extracted d) =>
    have hu : d.username = c.username := husr (c, .done (.extracted d)) hp d rfl
    constructor
    · show (finalizeStatus d).username = c.username
      unfold finalizeStatus
      split <;> exact hu
    · show (finalizeStatus d).status = _ ∨ (finalizeStatus d).status = _ ∨
        (finalizeStatus d).status = _
      unfold finalizeStatus
      by_cases hs : hasSentinelField d = true
      · rw [if_pos hs]
        exact Or.inr (Or.inl rfl)
      · rw [if_neg hs]
        exact Or.inl rfl

/-- Witness for C2: a one-account run whose task raised still yields one
Error record for that account. -/
theorem batch_run_one_record_per_account_witness :
    (process_accounts_batch [(⟨"96170003", "pw"⟩, .exn "boom")]).length = 1 ∧
    List.Forall₂ (fun (p : AccountCredentials × TaskResult) (r : AccountData) =>
        r.username = p.1.username ∧
        (r.status = "Success" ∨ r.status = "Partial Success" ∨ r.status = "Error"))
      [(⟨"96170003", "pw"⟩, .exn "boom")]
      (process_accounts_batch [(⟨"96170003", "pw"⟩, .exn "boom")]) := by
  refine batch_run_one_record_per_account _ ?_
  intro p hp d hd
  simp only [List.mem_singleton] at hp
  subst hp
  exact absurd hd (by simp)

/-- The cleanup sweep keeps an entry that is not expired, not idle, and
valid. -/
theorem cleanup_keeps (m : SessionManager) (now : ℤ) (u : String) (si : SessionInfo)
    (hmem : m.sessions u = some si)
    (hexp : si.is_expired now m.max_age_minutes = false)
    (hidl : si.is_idle now m.max_idle_minutes = false)
    (hval : si.is_valid = true) :
    (m.cleanup now).sessions u = some si := by
  show (match m.sessions u with
        | none => none
        | some si =>
          if si.is_expired now m.max_age_minutes || si.is_idle now m.max_idle_minutes
              || !si.is_valid then none
          else some si) = some si
  rw [hmem]
  simp [hexp, hidl, hval]

/-- The cleanup sweep maps absent entries to absent entries. -/
theorem cleanup_none (m : SessionManager) (now : ℤ) (u : String)
    (h : m.sessions u = none) :
    (m.cleanup now).sessions u = none := by
  show (match m.sessions u with
        | none => none
        | some si =>
          if si.is_expired now m.max_age_minutes || si.is_idle now m.max_idle_minutes
              || !si.is_valid then none
          else some si) = none
  rw [h]

/-- **C9.** `_cleanup_sessions` never removes a registry entry that is
younger than `max_idle_minutes`, was last used within `max_idle_minutes`,
and is still valid (for any configuration with `max_idle ≤ max_age`, as
holds for the constructed instance's defaults 10 ≤ 30): the entry is
still present and unchanged after the sweep. -/
theorem cleanup_preserves_fresh_valid (m : SessionManager) (now : ℤ) (u : String)
    (si : SessionInfo)
    (hmono : m.max_idle_minutes ≤ m.max_age_minutes)
    (hmem : m.sessions u = some si)
    (hvalid : si.is_valid = true)
    (hyoung : now - si.login_time ≤ m.max_idle_minutes)
    (hused : now - si.last_used ≤ m.max_idle_minutes) :
    (m.cleanup now).sessions u = some si := by
  apply cleanup_keeps m now u si hmem _ _ hvalid
  · simp only [SessionInfo.is_expired, decide_eq_false_iff_not, not_lt]
    omega
  · simp only [SessionInfo.is_idle, decide_eq_false_iff_not, not_lt]
    omega

/-- Witness for C9: a five-minute-old, recently used, valid session in
the default-configured manager survives a sweep. -/
theorem cleanup_preserves_fresh_valid_witness :
    (SessionManager.cleanup
        { sessions := updReg (fun _ => none) "96170004" (some (SessionInfo.mk 1 "96170004" "pw" 0 0 true)) }
        5).sessions "96170004"
      = some (SessionInfo.mk 1 "96170004" "pw" 0 0 true) := by
  apply cleanup_preserves_fresh_valid _ 5 "96170004" (SessionInfo.mk 1 "96170004" "pw" 0 0 true)
  · decide
  · simp [updReg]
  · rfl
  · decide
  · decide

/-- When no registry entry survives for the username, a successful login
returns a brand-new session (`is_new = true`) and registers it. -/
theorem gocs_fresh_of_absent (m : SessionManager) (u p : String) (t : ℤ) (c : ℕ)
    (h : m.sessions u = none) :
    m.get_or_create_session u p t none c
      = (.ok (c, true),
         { (m.cleanup t) with
           sessions := updReg (m.cleanup t).sessions u (some (SessionInfo.mk c u p t t true)) }) := by
  unfold SessionManager.get_or_create_session
  rw [cleanup_none m t u h]

/-- **C4.** `invalidate_session` marks the entry (when present) as
`valid = false` without removing it, and the next
`get_or_create_session` for that username treats it as stale: with a
succeeding login it returns a new client with `is_new = true`. -/
theorem invalidate_then_fresh_login (m : SessionManager) (u p : String) (si : SessionInfo)
    (t : ℤ) (c : ℕ) (hsi : m.sessions u = some si) :
    (m.invalidate_session u).sessions u = some { si with is_valid := false } ∧
    ((m.invalidate_session u).get_or_create_session u p t none c).1 = .ok (c, true) := by
  have hinv : (m.invalidate_session u).sessions u = some { si with is_valid := false } := by
    unfold SessionManager.invalidate_session
    rw [hsi]
    simp [updReg]
  refine ⟨hinv, ?_⟩
  have hclean : ((m.invalidate_session u).cleanup t).sessions u = none := by
    show (match (m.invalidate_session u).sessions u with
          | none => none
          | some si =>
            if si.is_expired t (m.invalidate_session u).max_age_minutes
                || si.is_idle t (m.invalidate_session u).max_idle_minutes
                || !si.is_valid then none
            else some si) = none
    rw [hinv]
    simp
  unfold SessionManager.get_or_create_session
  rw [hclean]

/-- Witness for C4 at a concrete one-entry registry. -/
theorem invalidate_then_fresh_login_witness :
    (SessionManager.invalidate_session
        { sessions := updReg (fun _ => none) "96170005" (some (SessionInfo.mk 1 "96170005" "pw" 0 0 true)) }
        "96170005").sessions "96170005"
      = some (SessionInfo.mk 1 "96170005" "pw" 0 0 false) ∧
    ((SessionManager.invalidate_session
        { sessions := updReg (fun _ => none) "96170005" (some (SessionInfo.mk 1 "96170005" "pw" 0 0 true)) }
        "96170005").get_or_create_session "96170005" "pw" 3 none 2).1 = .ok (2, true) :=
  invalidate_then_fresh_login _ "96170005" "pw" (SessionInfo.mk 1 "96170005" "pw" 0 0 true) 3 2
    (by simp [updReg])

/-- **C10.** When no entry can be reused and the fresh login fails,
`get_or_create_session` raises an exception carrying the login failure
reason, leaves no registry entry for the username (a stale entry having
been removed), and the next acquire for that username performs a fresh
login (`is_new = true` when it succeeds). -/
theorem login_failure_raises_and_cleans (m : SessionManager) (u p e : String)
    (t tn : ℤ) (c cn : ℕ)
    (hno : ∀ si, (m.cleanup t).sessions u = some si →
        reuse_ok si p t (m.cleanup t).max_age_minutes = false) :
    (m.get_or_create_session u p t (some e) c).1 = .error ("Login failed: " ++ e) ∧
    ((m.get_or_create_session u p t (some e) c).2).sessions u = none ∧
    (((m.get_or_create_session u p t (some e) c).2).get_or_create_session u p tn none cn).1
      = .ok (cn, true) := by
  rcases hreg : (m.cleanup t).sessions u with _ | si0
  · have hres : m.get_or_create_session u p t (some e) c
        = (.error ("Login failed: " ++ e), m.cleanup t) := by
      unfold SessionManager.get_or_create_session
      rw [hreg]
    rw [hres]
    refine ⟨rfl, hreg, ?_⟩
    rw [gocs_fresh_of_absent (m.cleanup t) u p tn cn hreg]
  · have hro := hno si0 hreg
    have hres : m.get_or_create_session u p t (some e) c
        = (.error ("Login failed: " ++ e),
           { (m.cleanup t) with
             sessions := updReg (m.cleanup t).sessions u none }) := by
      unfold SessionManager.get_or_create_session
      simp only [hreg]
      rw [if_neg (by simp [hro])]
    rw [hres]
    have habsent : (updReg (m.cleanup t).sessions u none) u = none := by simp [updReg]
    refine ⟨rfl, habsent, ?_⟩
    rw [gocs_fresh_of_absent _ u p tn cn habsent]

/-- Witness for C10: an empty registry with a failing login. -/
theorem login_failure_raises_and_cleans_witness :
    ((session_manager.get_or_create_session "96170006" "pw" 0 (some "Invalid credentials") 7).1
      = .error ("Login failed: " ++ "Invalid credentials")) ∧
    ((session_manager.get_or_create_session "96170006" "pw" 0 (some "Invalid credentials") 7).2).sessions "96170006" = none ∧
    (((session_manager.get_or_create_session "96170006" "pw" 0 (some "Invalid credentials") 7).2).get_or_create_session
        "96170006" "pw" 1 none 8).1 = .ok (8, true) :=
  login_failure_raises_and_cleans session_manager "96170006" "pw" "Invalid credentials" 0 1 7 8
    (fun si h => by simp [session_manager, SessionManager.cleanup] at h)

/-- A successful acquire leaves a registry entry for the username whose
client is the returned one, whose stored password is the supplied one,
and which is valid. -/
theorem gocs_ok_entry (m : SessionManager) (u p : String) (t : ℤ) (le : Option String)
    (c cl : ℕ) (isN : Bool) (m1 : SessionManager)
    (h1 : m.get_or_create_session u p t le c = (.ok (cl, isN), m1)) :
    ∃ si, m1.sessions u = some si ∧ si.client = cl ∧ si.password = p ∧ si.is_valid = true := by
  unfold SessionManager.get_or_create_session at h1
  rcases hreg : (m.cleanup t).sessions u with _ | si0 <;> simp only [hreg] at h1
  · match le with
    | some e => simp at h1
    | none =>
      simp only [Prod.mk.injEq, Except.ok.injEq] at h1
      obtain ⟨⟨hc, _⟩, hm⟩ := h1
      refine ⟨SessionInfo.mk c u p t t true, ?_, hc, rfl, rfl⟩
      rw [← hm]
      simp [updReg]
  · by_cases hro : reuse_ok si0 p t (m.cleanup t).max_age_minutes = true
    · rw [if_pos hro] at h1
      simp only [Prod.mk.injEq, Except.ok.injEq] at h1
      obtain ⟨⟨hc, _⟩, hm⟩ := h1
      have hro2 : si0.is_valid = true ∧ si0.password = p := by
        have := hro
        simp only [reuse_ok, Bool.and_eq_true, beq_iff_eq] at this
        exact ⟨this.1.2, this.2⟩
      refine ⟨{ si0 with last_used := t }, ?_, hc, hro2.2, hro2.1⟩
      rw [← hm]
      simp [updReg]
    · rw [if_neg hro] at h1
      match le with
      | some e => simp at h1
      | none =>
        simp only [Prod.mk.injEq, Except.ok.injEq] at h1
        obtain ⟨⟨hc, _⟩, hm⟩ := h1
        refine ⟨SessionInfo.mk c u p t t true, ?_, hc, rfl, rfl⟩
        rw [← hm]
        simp [updReg]

/-- An acquire against a registry entry that is valid, password-matching,
within `max_age` of its login and within `max_idle` of its last use
reuses that entry (`is_new = false`) and refreshes `last_used`. -/
theorem gocs_reuse (m1 : SessionManager) (u p : String) (t2 : ℤ) (l2 : Option String)
    (c2 : ℕ) (si : SessionInfo)
    (hsi : m1.sessions u = some si)
    (hv : si.is_valid = true) (hp : si.password = p)
    (hage : t2 - si.login_time ≤ m1.max_age_minutes)
    (hidle : t2 - si.last_used ≤ m1.max_idle_minutes) :
    (m1.get_or_create_session u p t2 l2 c2).1 = .ok (si.client, false) ∧
    ((m1.get_or_create_session u p t2 l2 c2).2).sessions u
      = some { si with last_used := t2 } := by
  have hexp : si.is_expired t2 m1.max_age_minutes = false := by
    simp only [SessionInfo.is_expired, decide_eq_false_iff_not, not_lt]
    omega
  have hidl : si.is_idle t2 m1.max_idle_minutes = false := by
    simp only [SessionInfo.is_idle, decide_eq_false_iff_not, not_lt]
    omega
  have hkeep : (m1.cleanup t2).sessions u = some si :=
    cleanup_keeps m1 t2 u si hsi hexp hidl hv
  have hro : reuse_ok si p t2 (m1.cleanup t2).max_age_minutes = true := by
    show reuse_ok si p t2 m1.max_age_minutes = true
    simp [reuse_ok, hexp, hv, hp]
  have hres : m1.get_or_create_session u p t2 l2 c2 =
      (.ok (si.client, false),
       { (m1.cleanup t2) with
         sessions := updReg (m1.cleanup t2).sessions u (some { si with last_used := t2 }) }) := by
    unfold SessionManager.get_or_create_session
    simp only [hkeep]
    rw [if_pos hro]
  rw [hres]
  exact ⟨rfl, by simp [updReg]⟩

/-- **C3.** After one successful acquire, a second acquire for the same
credentials within `max_age` of the session's login and within
`max_idle` of its last use, with the same password and no intervening
invalidation, returns the same underlying client with `is_new = false`
and refreshes `last_used`. -/
theorem acquire_within_limits_reuses (m : SessionManager) (u p : String) (t1 t2 : ℤ)
    (l1 l2 : Option String) (c1 c2 cl : ℕ) (isN : Bool) (m1 : SessionManager)
    (si : SessionInfo)
    (h1 : m.get_or_create_session u p t1 l1 c1 = (.ok (cl, isN), m1))
    (hsi : m1.sessions u = some si)
    (hage : t2 - si.login_time ≤ m1.max_age_minutes)
    (hidle : t2 - si.last_used ≤ m1.max_idle_minutes) :
    (m1.get_or_create_session u p t2 l2 c2).1 = .ok (si.client, false) ∧
    si.client = cl ∧
    ((m1.get_or_create_session u p t2 l2 c2).2).sessions u
      = some { si with last_used := t2 } := by
  obtain ⟨si', hsi', hcl, hp, hv⟩ := gocs_ok_entry m u p t1 l1 c1 cl isN m1 h1
  have heq : si' = si := Option.some.inj (hsi'.symm.trans hsi)
  subst heq
  have hr := gocs_reuse m1 u p t2 l2 c2 si' hsi hv hp hage hidle
  exact ⟨hr.1, hcl, hr.2⟩

/-- Witness for C3: a fresh login at time 0 followed by an acquire at
time 5 reuses the same client. -/
theorem acquire_within_limits_reuses_witness :
    (((session_manager.get_or_create_session "96170007" "pw" 0 none 7).2).get_or_create_session
        "96170007" "pw" 5 none 9).1 = .ok (7, false) ∧
    (7 : ℕ) = 7 ∧
    ((((session_manager.get_or_create_session "96170007" "pw" 0 none 7).2).get_or_create_session
        "96170007" "pw" 5 none 9).2).sessions "96170007"
      = some (SessionInfo.mk 7 "96170007" "pw" 0 5 true) :=
  acquire_within_limits_reuses session_manager "96170007" "pw" 0 5 none none 7 9 7 true
    ((session_manager.get_or_create_session "96170007" "pw" 0 none 7).2)
    (SessionInfo.mk 7 "96170007" "pw" 0 0 true)
    rfl (by decide) (by decide) (by decide)
